import Mathlib

/-!
Shallow embedding of the GSConnect telephony plugin
(src/service/plugins/telephony.js).

Covered here:
* the `sms:` URI codec (`SmsURI._init` as `SmsURI.parse`, `SmsURI.toString`),
  including an executable recognizer equivalent to the `_smsRegex` /
  `_numberRegex` regular expressions of the source (all separators in the
  grammar are single characters that cannot occur inside the adjacent
  character classes, so the backtracking regex is equivalent to the
  deterministic splitting performed below);
* the conversation-window lookup `_hasWindow`;
* the media-state update `_setMediaState`;
* the event dispatch `handlePacket` and the handlers `_onMissedCall`,
  `_onRinging`, `_onSms`, `_onTalking`, traced as explicit effect lists.
-/

deriving instance DecidableEq for Except

namespace Telephony

/-! ## Single-character splitting (JS `String.split` with one-char separator) -/

/-- JS `s.split(sep)` for a single-character separator. -/
def splitOnChar (sep : Char) : List Char → List (List Char)
  | [] => [[]]
  | c :: rest =>
    let r := splitOnChar sep rest
    if c = sep then [] :: r
    else
      match r with
      | [] => [[c]]
      | h :: t => (c :: h) :: t

/-- String-level wrapper for `splitOnChar`. -/
def splitStr (sep : Char) (s : String) : List String :=
  (splitOnChar sep s.data).map (fun l => ⟨l⟩)

/-! ## Character classes of the lenient RFC 5724 grammar in the source -/

/-- The class `[0-9A-F*#().-]` of `_lenientDigits`. -/
def lenientDigitChar (c : Char) : Bool :=
  (decide ('0' ≤ c) && decide (c ≤ '9')) ||
  (decide ('A' ≤ c) && decide (c ≤ 'F')) ||
  ['*', '#', '(', ')', '.', '-'].contains c

/-- Uppercase hex digit `[0-9A-F]`, as used in `%XX` escapes of the grammar. -/
def hexUpper (c : Char) : Bool :=
  (decide ('0' ≤ c) && decide (c ≤ '9')) || (decide ('A' ≤ c) && decide (c ≤ 'F'))

/-- ASCII `\w`, i.e. `[A-Za-z0-9_]`. -/
def wordChar (c : Char) : Bool :=
  c.isAlpha || c.isDigit || c = '_'

/-- The key class `[a-zA-Z0-9-]` of `_telParam`. -/
def telKeyChar (c : Char) : Bool :=
  c.isAlpha || c.isDigit || c = '-'

/-- The value class of `_telParam`. -/
def telValueChar (c : Char) : Bool :=
  wordChar c || ['[', ']', '/', ':', '&', '+', '$', '.', '!', '~', '*', '\'', '(', ')', '-'].contains c

/-- The key/value class `[\w.!~*'()-]` of `_smsParam`. -/
def smsParamChar (c : Char) : Bool :=
  wordChar c || ['.', '!', '~', '*', '\'', '(', ')', '-'].contains c

/-! ## `_lenientDigits` matcher -/

/-- Zero or more units of `_lenientDigits` after the optional leading `+`:
a class character, a space not followed by a space, or `%20` not followed
by `%20` (the two negative lookaheads of the source regex). -/
def lenientRest : List Char → Bool
  | [] => true
  | '%' :: '2' :: '0' :: rest =>
    (match rest with
     | '%' :: '2' :: '0' :: _ => false
     | _ => lenientRest rest)
  | ' ' :: rest =>
    (match rest with
     | ' ' :: _ => false
     | _ => lenientRest rest)
  | c :: rest => lenientDigitChar c && lenientRest rest

/-- Full `_lenientDigits`: `[+]?(?:[0-9A-F*#().-]| (?! )|%20(?!%20))+`. -/
def lenientDigitsMatch (l : List Char) : Bool :=
  match l with
  | '+' :: rest => !rest.isEmpty && lenientRest rest
  | _ => !l.isEmpty && lenientRest l

/-! ## Percent-escaped sequences -/

/-- Zero or more of a class character or `%XX` with uppercase hex, matching
`(?:CLASS|%[0-9A-F]{2})*` (the class never contains `%`). -/
def pctSeq (ok : Char → Bool) : List Char → Bool
  | [] => true
  | '%' :: a :: b :: rest => hexUpper a && hexUpper b && pctSeq ok rest
  | c :: rest => ok c && pctSeq ok rest

/-! ## Segment recognizers for the two regular expressions -/

/-- One `_telParam` body `key=value` (the `;` separator already stripped). -/
def telParamSeg (seg : List Char) : Bool :=
  match splitOnChar '=' seg with
  | [k, v] => !k.isEmpty && k.all telKeyChar && !v.isEmpty && pctSeq telValueChar v
  | _ => false

/-- One `_smsParam` field `key=value` of the query. -/
def smsFieldOk (seg : List Char) : Bool :=
  match splitOnChar '=' seg with
  | [k, v] => !k.isEmpty && k.all smsParamChar && pctSeq smsParamChar v
  | _ => false

/-- One `_lenientNumber`: lenient digits followed by `(?:_telParam)*`. -/
def recipientMatch (piece : List Char) : Bool :=
  match splitOnChar ';' piece with
  | [] => false
  | number :: params => lenientDigitsMatch number && params.all telParamSeg

/-- The recipient-list group of `_smsRegex`. -/
def recipientsOk (r : List Char) : Bool :=
  (splitOnChar ',' r).all recipientMatch

/-- The query group of `_smsRegex`: `_smsParam("&"_smsParam)*`. -/
def queryOk (q : List Char) : Bool :=
  (splitOnChar '&' q).all smsFieldOk

/-- Executable equivalent of `_smsRegex.exec(uri)`: on success returns the
two capture groups (recipient list, optional query). -/
def smsRegexExec (uri : String) : Option (String × Option String) :=
  match uri.data with
  | 's' :: 'm' :: 's' :: ':' :: rest =>
    let n := (rest.takeWhile (fun c => c == '/')).length
    if n = 0 || n = 2 || n = 3 then
      let rest2 := rest.drop n
      match splitOnChar '?' rest2 with
      | [r] => if recipientsOk r then some (⟨r⟩, none) else none
      | [r, q] =>
        if recipientsOk r && queryOk q then some (⟨r⟩, some ⟨q⟩) else none
      | _ => none
    else none
  | _ => none

/-! ## JS string built-ins used by `SmsURI` -/

/-- Hex digit value, case-insensitive (as accepted by `unescape` and
`decodeURIComponent`). -/
def hexVal? (c : Char) : Option Nat :=
  if decide ('0' ≤ c) && decide (c ≤ '9') then some (c.toNat - 48)
  else if decide ('A' ≤ c) && decide (c ≤ 'F') then some (c.toNat - 55)
  else if decide ('a' ≤ c) && decide (c ≤ 'f') then some (c.toNat - 87)
  else none

/-- Legacy JS `unescape`: `%uXXXX` and `%XX` are decoded, anything else is
copied verbatim. The `Nat` argument is fuel (the list length suffices, every
step consumes at least one character); structural recursion on the fuel keeps
the function kernel-reducible. -/
def unescapeAux : Nat → List Char → List Char
  | _, [] => []
  | 0, _ => []
  | fuel + 1, '%' :: 'u' :: a :: b :: c :: d :: rest =>
    match hexVal? a, hexVal? b, hexVal? c, hexVal? d with
    | some ha, some hb, some hc, some hd =>
      Char.ofNat (4096 * ha + 256 * hb + 16 * hc + hd) :: unescapeAux fuel rest
    | _, _, _, _ => '%' :: unescapeAux fuel ('u' :: a :: b :: c :: d :: rest)
  | fuel + 1, '%' :: a :: b :: rest =>
    match hexVal? a, hexVal? b with
    | some ha, some hb => Char.ofNat (16 * ha + hb) :: unescapeAux fuel rest
    | _, _ => '%' :: unescapeAux fuel (a :: b :: rest)
  | fuel + 1, c :: rest => c :: unescapeAux fuel rest

/-- JS `unescape` on strings. -/
def jsUnescape (s : String) : String := ⟨unescapeAux s.data.length s.data⟩

/-- A token of the `decodeURIComponent` scan: a literal character or one
percent-decoded byte. -/
inductive UriTok where
  | raw (c : Char)
  | byte (b : Nat)
deriving DecidableEq, Repr

/-- First phase of `decodeURIComponent`: replace every `%XX` by its byte;
`none` models the `URIError` thrown on a stray `%` or bad hex digits. -/
def pctTokens : List Char → Option (List UriTok)
  | [] => some []
  | '%' :: a :: b :: rest =>
    match hexVal? a, hexVal? b with
    | some ha, some hb => (pctTokens rest).map (UriTok.byte (16 * ha + hb) :: ·)
    | _, _ => none
  | '%' :: _ => none
  | c :: rest => (pctTokens rest).map (UriTok.raw c :: ·)

/-- Is `b` a UTF-8 continuation byte `10xxxxxx`? -/
def contByte (b : Nat) : Bool := decide (0x80 ≤ b) && decide (b < 0xC0)

/-- Second phase of `decodeURIComponent`: strict UTF-8 decoding of the byte
runs (rejecting overlong forms, surrogates and values above U+10FFFF),
literal characters pass through. The `Nat` argument is fuel (the list length
suffices); structural recursion on it keeps the function kernel-reducible. -/
def decodeToksAux : Nat → List UriTok → Option (List Char)
  | _, [] => some []
  | 0, _ => none
  | fuel + 1, .raw c :: rest => (decodeToksAux fuel rest).map (c :: ·)
  | fuel + 1, .byte b1 :: rest =>
    if b1 < 0x80 then (decodeToksAux fuel rest).map (Char.ofNat b1 :: ·)
    else if b1 < 0xC2 then none
    else if b1 < 0xE0 then
      match rest with
      | .byte b2 :: rest2 =>
        if contByte b2 then
          (decodeToksAux fuel rest2).map (Char.ofNat ((b1 - 0xC0) * 64 + (b2 - 0x80)) :: ·)
        else none
      | _ => none
    else if b1 < 0xF0 then
      match rest with
      | .byte b2 :: .byte b3 :: rest2 =>
        if contByte b2 && contByte b3 then
          let cp := (b1 - 0xE0) * 4096 + (b2 - 0x80) * 64 + (b3 - 0x80)
          if cp < 0x800 || (decide (0xD800 ≤ cp) && decide (cp ≤ 0xDFFF)) then none
          else (decodeToksAux fuel rest2).map (Char.ofNat cp :: ·)
        else none
      | _ => none
    else if b1 < 0xF5 then
      match rest with
      | .byte b2 :: .byte b3 :: .byte b4 :: rest2 =>
        if contByte b2 && contByte b3 && contByte b4 then
          let cp := (b1 - 0xF0) * 262144 + (b2 - 0x80) * 4096 + (b3 - 0x80) * 64 + (b4 - 0x80)
          if cp < 0x10000 || decide (0x10FFFF < cp) then none
          else (decodeToksAux fuel rest2).map (Char.ofNat cp :: ·)
        else none
      | _ => none
    else none

/-- JS `decodeURIComponent`; `none` models the thrown `URIError`. -/
def decodeURIComponent (s : String) : Option String :=
  ((pctTokens s.data).bind (fun ts => decodeToksAux ts.length ts)).map (fun l => ⟨l⟩)

/-- The characters legacy JS `escape` leaves untouched. -/
def escapeSafe (c : Char) : Bool :=
  c.isAlpha || c.isDigit || ['@', '*', '_', '+', '-', '.', '/'].contains c

/-- Uppercase hex digit for a nibble. -/
def hexDigit (n : Nat) : Char :=
  if n < 10 then Char.ofNat (48 + n) else Char.ofNat (55 + n)

/-- Legacy JS `escape` of one UTF-16 code unit sequence for a character. -/
def escapeChar (c : Char) : List Char :=
  if escapeSafe c then [c]
  else if c.toNat < 256 then
    ['%', hexDigit (c.toNat / 16), hexDigit (c.toNat % 16)]
  else if c.toNat < 65536 then
    ['%', 'u', hexDigit (c.toNat / 4096 % 16), hexDigit (c.toNat / 256 % 16),
     hexDigit (c.toNat / 16 % 16), hexDigit (c.toNat % 16)]
  else
    -- astral characters are two UTF-16 code units, each escaped separately
    let v := c.toNat - 65536
    let hi := 55296 + v / 1024
    let lo := 56320 + v % 1024
    ['%', 'u', hexDigit (hi / 4096 % 16), hexDigit (hi / 256 % 16),
     hexDigit (hi / 16 % 16), hexDigit (hi % 16),
     '%', 'u', hexDigit (lo / 4096 % 16), hexDigit (lo / 256 % 16),
     hexDigit (lo / 16 % 16), hexDigit (lo % 16)]

/-- Legacy JS `escape` on strings, used by `SmsURI.toString`. -/
def jsEscape (s : String) : String := ⟨(s.data.map escapeChar).flatten⟩

/-- JS `value.startsWith("+")`. -/
def startsWithPlus (v : String) : Bool :=
  match v.data with
  | '+' :: _ => true
  | _ => false

/-- JS truthiness of a possibly-undefined string. -/
def jsTruthy : Option String → Bool
  | none => false
  | some s => !(s = "")

/-- JS string conversion of a possibly-undefined string, as produced by the
`+` concatenation operator. -/
def jsToString : Option String → String
  | none => "undefined"
  | some s => s

/-! ## The `SmsURI` class -/

/-- The value carried by a parsed `SmsURI` object. -/
structure SmsURI where
  recipients : List String
  body : Option String
deriving DecidableEq, Repr

/-- The two `URIError`s thrown by `SmsURI._init`, plus the engine-level
`URIError` a failing `decodeURIComponent` raises. -/
inductive UriError where
  | malformedUri
  | duplicateBody
  | uriMalformed
deriving DecidableEq, Repr

/-- The `key === "phone-context" && value.startsWith("+")` test of
`SmsURI._init`, on a `key=value` tel-parameter segment. -/
def pcPlus (p : String) : Bool :=
  let parts := splitStr '=' p
  decide (parts.headD "" = "phone-context") && startsWithPlus ((parts[1]?).getD "")

/-- The value of a `key=value` tel-parameter segment. -/
def pcValue (p : String) : String := ((splitStr '=' p)[1]?).getD ""

/-- The `for (let param of params...)` loop of `SmsURI._init` over the tel
parameters of one recipient: the first `phone-context` parameter whose value
starts with `+` is prepended to the unescaped digits and ends the loop. -/
def processRecipientParts (number : String) : List String → String
  | [] => jsUnescape number
  | p :: rest =>
    if pcPlus p then pcValue p ++ jsUnescape number
    else processRecipientParts number rest

/-- One element of the `recipients.split(",").map(...)` of `SmsURI._init`:
`_numberRegex` splits into digits and `;`-separated parameters. -/
def processRecipient (r : String) : String :=
  match splitStr ';' r with
  | [] => jsUnescape r
  | number :: params => processRecipientParts number params

/-- One iteration of the query loop of `SmsURI._init` over `this.body`. -/
def applyQueryField (body : Option String) (field : String) : Except UriError (Option String) :=
  let parts := splitStr '=' field
  if parts.headD "" = "body" then
    if jsTruthy body then .error .duplicateBody
    else
      match parts[1]? with
      | some v =>
        if v = "" then .ok none
        else
          match decodeURIComponent v with
          | some d => .ok (some d)
          | none => .error .uriMalformed
      | none => .ok none
  else .ok body

/-- The query loop of `SmsURI._init`. -/
def parseQuery : Option String → List String → Except UriError (Option String)
  | body, [] => .ok body
  | body, f :: rest =>
    match applyQueryField body f with
    | .error e => .error e
    | .ok b => parseQuery b rest

/-- `SmsURI._init`: a failing `_smsRegex.exec` destructuring raises the
"malformed sms URI" `URIError` before any field is assigned; the result is
built from the two capture groups. -/
def SmsURI.parse (uri : String) : Except UriError SmsURI :=
  match smsRegexExec uri with
  | none => .error .malformedUri
  | some (recips, query) =>
    let recipients := (splitStr ',' recips).map processRecipient
    match query with
    | none => .ok ⟨recipients, none⟩
    | some q =>
      match parseQuery none (splitStr '&' q) with
      | .error e => .error e
      | .ok body => .ok ⟨recipients, body⟩

/-- JS `Array.join(",")`. -/
def joinComma : List String → String
  | [] => ""
  | [s] => s
  | s :: rest => s ++ "," ++ joinComma rest

/-- `SmsURI.toString`: the recipients joined by commas, and `?body=` with a
legacy-escaped body only when `this.body` is truthy. -/
def SmsURI.toString (u : SmsURI) : String :=
  let uri := "sms:" ++ joinComma u.recipients
  match u.body with
  | some b => if b = "" then uri else uri ++ "?body=" ++ jsEscape b
  | none => uri

/-! ## The telephony plugin: data model -/

/-- A resolved contact record, as returned by `contacts.getContact`. -/
structure Contact where
  name : String
  avatar : Option String
deriving DecidableEq, Repr

/-- A normalized telephony event as produced by `_parsePacket`: the packet
body fields plus the resolved contact and the arrival time. The icon choice
is a pure function of `contact.avatar` and `event` and carries no further
information, so it is not repeated here. -/
structure TelEvent where
  event : String
  phoneNumber : String
  messageBody : Option String
  isCancel : Bool
  contact : Contact
  time : Nat
deriving DecidableEq, Repr

/-- An open conversation window as seen by `_hasWindow`: its owning device
id (if any) and its stored number. -/
structure Window where
  device : Option String
  number : String
deriving DecidableEq, Repr

/-- The plugin's surroundings: the device identity and name, whether the
notification plugin is loaded, and the currently open windows. -/
structure Env where
  deviceId : String
  deviceName : String
  hasNotifPlugin : Bool
  windows : List Window
deriving DecidableEq, Repr

/-- Modelled from the spec: the permission bitmask is consumed only through
the two tests `this.allow & Allow.SMS` and `this.allow & Allow.CALLS`
(`Allow` itself is defined outside this file's source), so it is modelled as
the two decoded capability bits. -/
structure Allow where
  calls : Bool
  sms : Bool
deriving DecidableEq, Repr

/-- One observable action of the plugin: the calls into the notification
plugin, the conversation window, the device notification surface, the
generic signal emission and the media-state write. -/
inductive Effect where
  | markDuplicate (localId : String) (ticker : String) (isCancel : Bool)
  | receiveMessage (contact : Contact) (number : String) (body : Option String)
  | pushWindowNote (s : String)
  | sendNotification (id : String) (title : String) (body : Option String)
  | withdrawNotification (id : String)
  | emitEvent (kind : String) (name : String) (number : String) (avatar : String) (body : String)
  | setMediaState (v : Nat)
deriving DecidableEq, Repr

/-! ## `_hasWindow` -/

/-- `number.replace(/\D/g, "")`: strip every non-digit character. -/
def stripNonDigits (s : String) : String := ⟨s.data.filter Char.isDigit⟩

/-- `_hasWindow`: the first open window owned by this device whose stored
number, stripped of non-digits, equals the stripped query number. -/
def hasWindow (env : Env) (number : String) : Option Window :=
  let n := stripNonDigits number
  env.windows.find? (fun w =>
    match w.device with
    | none => false
    | some d => decide (d = env.deviceId) && decide (stripNonDigits w.number = n))

/-! ## `_setMediaState` -/

/-- `_setMediaState`: the stored `_state` after the update. The previous
value is irrelevant because the code overwrites `_state` (with `1` or `2`)
before the bitwise-mask branch reads it back. -/
def setMediaState (state : Nat) : Nat :=
  if state = 1 then 1
  else
    let s := 2
    if state &&& 2 ≠ 0 then s &&& state
    else if state &&& 4 ≠ 0 then s &&& state
    else s

/-! ## Event handlers, as effect traces -/

namespace Plugin

/-- `_onMissedCall`: pre-register the dedup entry, look for an open window
(logging the call there and cancelling the entry if found), and always send
the device notification. -/
def onMissedCall (env : Env) (ev : TelEvent) : List Effect :=
  (if env.hasNotifPlugin then
     [.markDuplicate ("missedCall|" ++ Nat.repr ev.time) ("Missed call: " ++ ev.contact.name) false]
   else []) ++
  (match hasWindow env ev.phoneNumber with
   | some _ =>
     [.receiveMessage ev.contact ev.phoneNumber
        (some ("<i>Missed call at " ++ Nat.repr ev.time ++ "</i>")),
      .pushWindowNote (ev.event ++ "|" ++ ev.contact.name ++ ": " ++ jsToString ev.messageBody)] ++
     (if env.hasNotifPlugin then
        [.markDuplicate ("missedCall|" ++ Nat.repr ev.time)
           (ev.contact.name ++ ": " ++ jsToString ev.messageBody) true]
      else [])
   | none => []) ++
  [.sendNotification (ev.event ++ "|" ++ Nat.repr ev.time) "Missed Call"
     (some ("Missed call from " ++ ev.contact.name ++ " on " ++ env.deviceName))]

/-- `_onRinging`: send the incoming-call notification and set media state 2. -/
def onRinging (env : Env) (ev : TelEvent) : List Effect :=
  [.sendNotification (ev.event ++ "|" ++ Nat.repr ev.time) "Incoming Call"
     (some ("Incoming call from " ++ ev.contact.name ++ " on " ++ env.deviceName)),
   .setMediaState 2]

/-- `_onSms`: pre-register the dedup entry, look for an open window (logging
the message there and cancelling the entry if found), and always send the
device notification. -/
def onSms (env : Env) (ev : TelEvent) : List Effect :=
  (if env.hasNotifPlugin then
     [.markDuplicate ("sms|" ++ Nat.repr ev.time)
        (ev.contact.name ++ ": " ++ jsToString ev.messageBody) false]
   else []) ++
  (match hasWindow env ev.phoneNumber with
   | some _ =>
     [.receiveMessage ev.contact ev.phoneNumber ev.messageBody,
      .pushWindowNote (ev.event ++ "|" ++ ev.contact.name ++ ": " ++ jsToString ev.messageBody)] ++
     (if env.hasNotifPlugin then
        [.markDuplicate ("sms|" ++ Nat.repr ev.time)
           (ev.contact.name ++ ": " ++ jsToString ev.messageBody) true]
      else [])
   | none => []) ++
  [.sendNotification (ev.event ++ "|" ++ Nat.repr ev.time) ev.contact.name ev.messageBody]

/-- `_onTalking`: withdraw the ringing notification, send the in-progress
notification and set media state 2. -/
def onTalking (env : Env) (ev : TelEvent) : List Effect :=
  [.withdrawNotification ("ringing|" ++ ev.contact.name),
   .sendNotification (ev.event ++ "|" ++ Nat.repr ev.time) "Call In Progress"
     (some ("Call in progress with " ++ ev.contact.name ++ " on " ++ env.deviceName)),
   .setMediaState 2]

/-- The permission-gated dispatch at the end of `handlePacket`: unknown
kinds and denied permissions reject with no effect. -/
def dispatch (env : Env) (allow : Allow) (ev : TelEvent) : List Effect :=
  if ev.event = "sms" && allow.sms then onSms env ev
  else if allow.calls then
    if ev.event = "missedCall" then onMissedCall env ev
    else if ev.event = "ringing" then onRinging env ev
    else if ev.event = "talking" then onTalking env ev
    else []
  else []

/-- `handlePacket` on an already-normalized event: the cancel branch sets
media state 1 and withdraws by `event + "|" + contact.name`; the other
branch emits the generic event signal (with `|| ""` fallbacks) and then
dispatches by permission. -/
def handlePacket (env : Env) (allow : Allow) (ev : TelEvent) : List Effect :=
  if ev.isCancel then
    [.setMediaState 1, .withdrawNotification (ev.event ++ "|" ++ ev.contact.name)]
  else
    .emitEvent ev.event ev.contact.name ev.phoneNumber (ev.contact.avatar.getD "")
      (ev.messageBody.getD "") :: dispatch env allow ev

end Plugin

/-! ## Trace observations -/

/-- Is this effect a generic event-signal emission? -/
def isEmit : Effect → Bool
  | .emitEvent .. => true
  | _ => false

/-- Is this effect a device notification send? -/
def isSend : Effect → Bool
  | .sendNotification .. => true
  | _ => false

/-- Is this effect a notification withdrawal? -/
def isWithdraw : Effect → Bool
  | .withdrawNotification .. => true
  | _ => false

/-- The sequence of values written to `_state` along a trace. -/
def mediaWrites (t : List Effect) : List Nat :=
  t.filterMap (fun e =>
    match e with
    | .setMediaState v => some v
    | _ => none)

/-- The stored `_state` after running a trace from `st`. -/
def finalState (st : Nat) (t : List Effect) : Nat :=
  (mediaWrites t).foldl (fun _ v => setMediaState v) st

/-! ## Helper lemmas -/

/-- No handler emits the generic event signal. -/
theorem countP_isEmit_onMissedCall (env : Env) (ev : TelEvent) :
    (Plugin.onMissedCall env ev).countP isEmit = 0 := by
  cases hw : hasWindow env ev.phoneNumber <;> cases hn : env.hasNotifPlugin <;>
    simp [Plugin.onMissedCall, hw, hn, List.countP_append, List.countP_cons, isEmit]

/-- No handler emits the generic event signal. -/
theorem countP_isEmit_onSms (env : Env) (ev : TelEvent) :
    (Plugin.onSms env ev).countP isEmit = 0 := by
  cases hw : hasWindow env ev.phoneNumber <;> cases hn : env.hasNotifPlugin <;>
    simp [Plugin.onSms, hw, hn, List.countP_append, List.countP_cons, isEmit]

/-- The permission-gated dispatch never emits the generic event signal. -/
theorem countP_isEmit_dispatch (env : Env) (allow : Allow) (ev : TelEvent) :
    (Plugin.dispatch env allow ev).countP isEmit = 0 := by
  unfold Plugin.dispatch
  split
  · exact countP_isEmit_onSms env ev
  split
  · split
    · exact countP_isEmit_onMissedCall env ev
    split
    · simp [Plugin.onRinging, List.countP_cons, isEmit]
    split
    · simp [Plugin.onTalking, List.countP_cons, isEmit]
    · simp
  · simp

/-! ## Claim theorems -/

/-- C5: every input rejected by the top-level `sms:` grammar — including the
non-`sms:` scheme `tel:111` — makes `SmsURI.parse` fail with the malformed-URI
error, carrying no partial result (the error constructor has no fields, and
the failing `exec` destructuring throws before any assignment). -/
theorem claim_c5 :
    (∀ uri, smsRegexExec uri = none → SmsURI.parse uri = .error .malformedUri) ∧
    SmsURI.parse "tel:111" = .error .malformedUri := by
  constructor
  · intro uri h
    simp [SmsURI.parse, h]
  · decide

theorem claim_c5_witness : SmsURI.parse "tel:111" = .error .malformedUri :=
  claim_c5.1 "tel:111" (by decide)

/-- C9: for the `SmsURI` value with recipients `["15551234567"]` and body
`"hello"`, serializing, re-parsing, and serializing again reproduces the
same string. -/
theorem claim_c9 :
    (SmsURI.parse (SmsURI.toString ⟨["15551234567"], some "hello"⟩)).map SmsURI.toString =
      .ok (SmsURI.toString ⟨["15551234567"], some "hello"⟩) := by decide

/-- C2 counterexample: `sms:111?body=&body=b` contains the `body` field twice
in its query, yet parsing succeeds (the later value silently overrides the
earlier empty one) instead of raising the duplicate-field error, refuting the
claim's universal statement. -/
theorem claim_c2_counterexample :
    SmsURI.parse "sms:111?body=&body=b" = .ok ⟨["111"], some "b"⟩ ∧
    SmsURI.parse "sms:111?body=&body=b" ≠ .error .duplicateBody := by decide

/-- C2 amended: a `body` field raises the duplicate-field error exactly when
an earlier `body` field already recorded a non-empty (truthy) value; an
earlier `body=` with empty value is silently overridden. In particular
`sms:111?body=a&body=b` fails with the duplicate-field error. -/
theorem claim_c2_amended :
    (∀ f1 f2 v w d, splitStr '=' f1 = ["body", v] → splitStr '=' f2 = ["body", w] →
       v ≠ "" → decodeURIComponent v = some d → d ≠ "" →
       parseQuery none [f1, f2] = .error .duplicateBody) ∧
    SmsURI.parse "sms:111?body=a&body=b" = .error .duplicateBody := by
  constructor
  · intro f1 f2 v w d h1 h2 hv hd hdne
    simp [parseQuery, applyQueryField, h1, h2, hv, hd, hdne, jsTruthy]
  · decide

theorem claim_c2_witness : parseQuery none ["body=a", "body=b"] = .error .duplicateBody :=
  claim_c2_amended.1 "body=a" "body=b" "a" "b" "a" (by decide) (by decide) (by decide)
    (by decide) (by decide)

/-- C4 counterexample: parsing `sms:111?body=` yields an absent body
(`undefined` in the source: `(value) ? ... : undefined`), not the explicit
empty string the claim requires. -/
theorem claim_c4_counterexample :
    SmsURI.parse "sms:111?body=" = .ok ⟨["111"], none⟩ ∧
    (Except.ok (⟨["111"], none⟩ : SmsURI) : Except UriError SmsURI) ≠ .ok ⟨["111"], some ""⟩ := by
  decide

/-- C4 amended: a `body=` field with empty value yields the body absent
(`undefined`), the same as having no body field; a `body` field with no
`=value` part at all does not match the query grammar, so parsing fails with
the malformed-URI error; a non-empty value is URL-decoded. -/
theorem claim_c4_amended :
    SmsURI.parse "sms:111?body=" = .ok ⟨["111"], none⟩ ∧
    SmsURI.parse "sms:111?body" = .error .malformedUri ∧
    SmsURI.parse "sms:111?body=a%20b" = .ok ⟨["111"], some "a b"⟩ := by decide

/-- C3: an inbound event with `isCancel` set advances the media state by the
cancel transition (`_setMediaState(1)`, leaving `_state = 1`), issues exactly
one notification withdrawal, keyed `event + "|" + contact.name`, and never
emits the generic event signal — for every permission mask. -/
theorem claim_c3 (st : Nat) (env : Env) (allow : Allow) (ev : TelEvent)
    (h : ev.isCancel = true) :
    (Plugin.handlePacket env allow ev).countP isWithdraw = 1 ∧
    Effect.withdrawNotification (ev.event ++ "|" ++ ev.contact.name) ∈
      Plugin.handlePacket env allow ev ∧
    (Plugin.handlePacket env allow ev).countP isEmit = 0 ∧
    finalState st (Plugin.handlePacket env allow ev) = 1 := by
  simp [Plugin.handlePacket, h, finalState, mediaWrites, setMediaState,
    List.countP_cons, isWithdraw, isEmit]

theorem claim_c3_witness :
    (Plugin.handlePacket ⟨"dev", "Phone", true, []⟩ ⟨true, true⟩
        ⟨"ringing", "555", none, true, ⟨"Bob", none⟩, 7⟩).countP isWithdraw = 1 :=
  (claim_c3 0 ⟨"dev", "Phone", true, []⟩ ⟨true, true⟩
    ⟨"ringing", "555", none, true, ⟨"Bob", none⟩, 7⟩ rfl).1

/-- C8: an inbound event with `isCancel` false makes `handlePacket` emit the
generic event signal exactly once — as the first action, before any
permission check, so for every permission mask — carrying the contact name,
phone number, avatar path and message body with empty-string fallbacks. -/
theorem claim_c8 (env : Env) (allow : Allow) (ev : TelEvent)
    (h : ev.isCancel = false) :
    (Plugin.handlePacket env allow ev).countP isEmit = 1 ∧
    (Plugin.handlePacket env allow ev).head? =
      some (.emitEvent ev.event ev.contact.name ev.phoneNumber
        (ev.contact.avatar.getD "") (ev.messageBody.getD "")) := by
  simp [Plugin.handlePacket, h, List.countP_cons, isEmit, countP_isEmit_dispatch]

theorem claim_c8_witness :
    (Plugin.handlePacket ⟨"dev", "Phone", false, []⟩ ⟨false, false⟩
        ⟨"sms", "555", some "hi", false, ⟨"Bob", none⟩, 7⟩).countP isEmit = 1 :=
  (claim_c8 ⟨"dev", "Phone", false, []⟩ ⟨false, false⟩
    ⟨"sms", "555", some "hi", false, ⟨"Bob", none⟩, 7⟩ rfl).1

/-- C10: for the only inputs the plugin ever passes to `_setMediaState`
(`1` on a cancel event, `2` from `_onRinging` and `_onTalking`), the stored
state is exactly the input — ringing and talking write the identical value
`2`, the bitwise-mask branch leaves `2` unchanged (`2 & 2 = 2`), and so the
stored value only ever distinguishes two states. -/
theorem claim_c10 :
    setMediaState 1 = 1 ∧ setMediaState 2 = 2 ∧
    (∀ env ev, mediaWrites (Plugin.onRinging env ev) = [2] ∧
      mediaWrites (Plugin.onTalking env ev) = [2]) ∧
    (∀ s, s = 1 ∨ s = 2 → setMediaState s = s) := by
  refine ⟨by decide, by decide, ?_, ?_⟩
  · intro env ev
    constructor <;> simp [Plugin.onRinging, Plugin.onTalking, mediaWrites]
  · rintro s (rfl | rfl) <;> decide

theorem claim_c10_witness : setMediaState 2 = 2 :=
  claim_c10.2.2.2 2 (Or.inr rfl)

/-- C6: a recipient carrying a `phone-context` parameter whose value starts
with `+` is rewritten to that value (the first such, in parameter order)
prepended to the URL-unescaped digits, discarding every other tel
parameter; otherwise the recipient is the URL-unescaped digit string alone.
In particular `sms:5551234;phone-context=+1` parses to `["+15551234"]`. -/
theorem claim_c6 :
    (∀ number params, processRecipientParts number params =
      match params.find? pcPlus with
      | some p => pcValue p ++ jsUnescape number
      | none => jsUnescape number) ∧
    SmsURI.parse "sms:5551234;phone-context=+1" = .ok ⟨["+15551234"], none⟩ := by
  constructor
  · intro number params
    induction params with
    | nil => simp [processRecipientParts]
    | cons p rest ih =>
      cases hc : pcPlus p <;>
        simp [processRecipientParts, List.find?, hc, ih]
  · decide

/-- C7: `_hasWindow` returns a window exactly when an open window of the
same device identity stores a number whose digit sequence (all non-digit
characters stripped from both sides) equals the query's; formatting such as
`+1 (555) 123-4567` versus `15551234567` is irrelevant. -/
theorem claim_c7 :
    (∀ env n w, hasWindow env n = some w →
       w ∈ env.windows ∧ w.device = some env.deviceId ∧
       stripNonDigits w.number = stripNonDigits n) ∧
    (∀ env n, hasWindow env n = none →
       ∀ w, w ∈ env.windows → w.device = some env.deviceId →
         stripNonDigits w.number ≠ stripNonDigits n) ∧
    stripNonDigits "+1 (555) 123-4567" = stripNonDigits "15551234567" := by
  refine ⟨?_, ?_, by decide⟩
  · intro env n w h
    have hm := List.mem_of_find?_eq_some h
    have hp := List.find?_some h
    refine ⟨hm, ?_⟩
    cases hd : w.device with
    | none => rw [hd] at hp; simp at hp
    | some d =>
      rw [hd] at hp
      simp only [Bool.and_eq_true, decide_eq_true_eq] at hp
      exact ⟨by rw [hp.1], hp.2⟩
  · intro env n h w hw hdev heq
    have hall := List.find?_eq_none.mp h w hw
    rw [hdev] at hall
    simp [heq] at hall

/-- An environment with one open conversation window matching the incoming
number, for the C1 instances. -/
def c1Env : Env := ⟨"dev", "Phone", true, [⟨some "dev", "5551234567"⟩]⟩

/-- An incoming sms event from the number of `c1Env`'s open window. -/
def c1Ev : TelEvent := ⟨"sms", "5551234567", some "hi", false, ⟨"Alice", none⟩, 100⟩

/-- C1 counterexample: with an open conversation window matching the event's
number, the dispatcher appends the message to the window and cancels the
pre-registered dedup entry — but it still sends a system notification, so a
notification descriptor is not produced "only when no matching window is
found". -/
theorem claim_c1_counterexample :
    (hasWindow c1Env c1Ev.phoneNumber).isSome = true ∧
    Effect.receiveMessage c1Ev.contact c1Ev.phoneNumber c1Ev.messageBody ∈
      Plugin.handlePacket c1Env ⟨true, true⟩ c1Ev ∧
    Effect.markDuplicate "sms|100" "Alice: hi" true ∈
      Plugin.handlePacket c1Env ⟨true, true⟩ c1Ev ∧
    (Plugin.handlePacket c1Env ⟨true, true⟩ c1Ev).countP isSend = 1 := by decide

/-- C1 amended: for missedCall and sms events, when an open conversation
window matches the event's number the event is appended to that window's log
and the pre-registered dedup entry is marked cancelled (when the
notification plugin is loaded) — but exactly one system notification
descriptor is produced in every case, window or not. -/
theorem claim_c1_amended (env : Env) (ev : TelEvent) :
    (Plugin.onSms env ev).countP isSend = 1 ∧
    (Plugin.onMissedCall env ev).countP isSend = 1 ∧
    ((hasWindow env ev.phoneNumber).isSome = true →
      Effect.receiveMessage ev.contact ev.phoneNumber ev.messageBody ∈ Plugin.onSms env ev ∧
      Effect.receiveMessage ev.contact ev.phoneNumber
          (some ("<i>Missed call at " ++ Nat.repr ev.time ++ "</i>")) ∈
        Plugin.onMissedCall env ev ∧
      (env.hasNotifPlugin = true →
        Effect.markDuplicate ("sms|" ++ Nat.repr ev.time)
            (ev.contact.name ++ ": " ++ jsToString ev.messageBody) true ∈ Plugin.onSms env ev ∧
        Effect.markDuplicate ("missedCall|" ++ Nat.repr ev.time)
            (ev.contact.name ++ ": " ++ jsToString ev.messageBody) true ∈
          Plugin.onMissedCall env ev)) := by
  cases hw : hasWindow env ev.phoneNumber <;> cases hn : env.hasNotifPlugin <;>
    simp [Plugin.onSms, Plugin.onMissedCall, hw, hn, List.countP_append,
      List.countP_cons, isSend]

theorem claim_c1_witness :
    Effect.markDuplicate ("sms|" ++ Nat.repr c1Ev.time)
        (c1Ev.contact.name ++ ": " ++ jsToString c1Ev.messageBody) true ∈
      Plugin.onSms c1Env c1Ev :=
  (((claim_c1_amended c1Env c1Ev).2.2 (by decide)).2.2 (by decide)).1

theorem claim_c7_witness :
    (⟨some "dev", "+1 (555) 123-4567"⟩ : Window) ∈
      (⟨"dev", "Phone", true, [⟨some "dev", "+1 (555) 123-4567"⟩]⟩ : Env).windows ∧
    (Window.mk (some "dev") "+1 (555) 123-4567").device =
      some (⟨"dev", "Phone", true, [⟨some "dev", "+1 (555) 123-4567"⟩]⟩ : Env).deviceId ∧
    stripNonDigits "+1 (555) 123-4567" = stripNonDigits "15551234567" :=
  claim_c7.1 ⟨"dev", "Phone", true, [⟨some "dev", "+1 (555) 123-4567"⟩]⟩ "15551234567"
    ⟨some "dev", "+1 (555) 123-4567"⟩ (by decide)

end Telephony

